import Mathlib

/-!
# Verification of the `lightning_encoding` channel core and wire codec

Shallow embedding of the repository's Rust sources:

* `src/bolt/channel.rs` — the BOLT3 channel `Core` state machine, key
  obfuscation and the commitment-transaction script generators;
* `src/primitives.rs` — the fixed-width integer part of the wire codec.

Conventions of the embedding:

* Bytes are `Nat`s below 256; byte strings are `List Nat`.
* Rust `u64`/`u32` arithmetic is `Nat` with an explicit `% 2 ^ w` at the
  operations where overflow or underflow matters (release-build wrapping
  semantics).
* Fallible Rust code returns `Except`; code that can `panic!`/`expect` or
  `unimplemented!` returns an `Outcome`, whose `panicked` constructor marks
  a Rust panic.
* `&mut self` methods are state-passing: they return the new state next to
  the result, and on an early `return Err(..)` the returned state keeps every
  field assignment made before the failing line, exactly as the Rust
  borrowed state would.
* SHA-256 and RIPEMD-160 are implemented concretely (the Rust code calls
  `bitcoin_hashes`); secp256k1 point operations are kept abstract behind a
  small interface, since no claim depends on actual curve arithmetic.
-/

set_option maxRecDepth 100000

/-! ## Byte-string helpers -/

/-- Big-endian bytes of `n`, exactly `w` bytes wide (truncates above `256^w`). -/
def beBytesOfNat : Nat → Nat → List Nat
  | 0, _ => []
  | w + 1, n => beBytesOfNat w (n / 256) ++ [n % 256]

/-- Big-endian interpretation of a byte string (`u64::from_be_bytes` on 8 bytes). -/
def beBytesToNat (bs : List Nat) : Nat :=
  bs.foldl (fun acc b => acc * 256 + b) 0

/-- The last `k` bytes of a byte string. -/
def lastBytes (k : Nat) (bs : List Nat) : List Nat :=
  bs.drop (bs.length - k)

/-- Lexicographic comparison of byte strings, as Rust's derived `Ord` on the
serialized public keys compares them. -/
def bytesLe : List Nat → List Nat → Bool
  | [], _ => true
  | _ :: _, [] => false
  | a :: as, b :: bs => if a < b then true else if b < a then false else bytesLe as bs

theorem bytesLe_total (a b : List Nat) : bytesLe a b = true ∨ bytesLe b a = true := by
  induction a generalizing b with
  | nil => exact Or.inl rfl
  | cons x xs ih =>
    cases b with
    | nil => exact Or.inr rfl
    | cons y ys =>
      by_cases hxy : x < y
      · exact Or.inl (by simp [bytesLe, hxy])
      · by_cases hyx : y < x
        · exact Or.inr (by simp [bytesLe, hyx, hxy])
        · have hee : x = y := Nat.le_antisymm (Nat.le_of_not_lt hyx) (Nat.le_of_not_lt hxy)
          subst hee
          rcases ih ys with h | h
          · exact Or.inl (by simp [bytesLe, h])
          · exact Or.inr (by simp [bytesLe, h])

theorem bytesLe_antisymm : ∀ a b : List Nat,
    bytesLe a b = true → bytesLe b a = true → a = b
  | [], [], _, _ => rfl
  | [], _ :: _, _, h => by simp [bytesLe] at h
  | _ :: _, [], h, _ => by simp [bytesLe] at h
  | x :: xs, y :: ys, h1, h2 => by
    by_cases hxy : x < y
    · have hfalse : bytesLe (y :: ys) (x :: xs) = false := by
        simp [bytesLe, Nat.lt_asymm hxy, hxy]
      rw [hfalse] at h2
      exact absurd h2 (by simp)
    · by_cases hyx : y < x
      · simp [bytesLe, hxy, hyx] at h1
      · have hee : x = y := Nat.le_antisymm (Nat.le_of_not_lt hyx) (Nat.le_of_not_lt hxy)
        subst hee
        simp only [bytesLe, if_neg hxy, if_neg hyx] at h1 h2
        rw [bytesLe_antisymm xs ys h1 h2]

/-! ## 32-bit word arithmetic (for the hash functions) -/

/-- Truncation to a 32-bit word. -/
def w32 (x : Nat) : Nat := x % 4294967296

/-- Right rotation of a 32-bit word. -/
def rotr32 (n x : Nat) : Nat := w32 ((x >>> n) ||| (x <<< (32 - n)))

/-- Left rotation of a 32-bit word. -/
def rotl32 (n x : Nat) : Nat := w32 ((x <<< n) ||| (x >>> (32 - n)))

/-! ## SHA-256

A direct executable transcription of FIPS 180-4, operating on byte lists.
The Rust code reaches it through `bitcoin::hashes::sha256`. -/

def sha256K : List Nat :=
  [1116352408, 1899447441, 3049323471, 3921009573, 961987163, 1508970993,
   2453635748, 2870763221, 3624381080, 310598401, 607225278, 1426881987,
   1925078388, 2162078206, 2614888103, 3248222580, 3835390401, 4022224774,
   264347078, 604807628, 770255983, 1249150122, 1555081692, 1996064986,
   2554220882, 2821834349, 2952996808, 3210313671, 3336571891, 3584528711,
   113926993, 338241895, 666307205, 773529912, 1294757372, 1396182291,
   1695183700, 1986661051, 2177026350, 2456956037, 2730485921, 2820302411,
   3259730800, 3345764771, 3516065817, 3600352804, 4094571909, 275423344,
   430227734, 506948616, 659060556, 883997877, 958139571, 1322822218,
   1537002063, 1747873779, 1955562222, 2024104815, 2227730452, 2361852424,
   2428436474, 2756734187, 3204031479, 3329325298]

def sha256H0 : List Nat :=
  [1779033703, 3144134277, 1013904242, 2773480762,
   1359893119, 2600822924, 528734635, 1541459225]

/-- Big-endian 32-bit words of a byte string (whole 4-byte groups). -/
def beWordsOfBytes : List Nat → List Nat
  | b0 :: b1 :: b2 :: b3 :: rest =>
      (((b0 * 256 + b1) * 256 + b2) * 256 + b3) :: beWordsOfBytes rest
  | _ => []

def sigmaSmall0 (x : Nat) : Nat := rotr32 7 x ^^^ rotr32 18 x ^^^ (x >>> 3)

def sigmaSmall1 (x : Nat) : Nat := rotr32 17 x ^^^ rotr32 19 x ^^^ (x >>> 10)

def sigmaBig0 (x : Nat) : Nat := rotr32 2 x ^^^ rotr32 13 x ^^^ rotr32 22 x

def sigmaBig1 (x : Nat) : Nat := rotr32 6 x ^^^ rotr32 11 x ^^^ rotr32 25 x

def chWord (x y z : Nat) : Nat := (x &&& y) ^^^ ((x ^^^ 4294967295) &&& z)

def majWord (x y z : Nat) : Nat := (x &&& y) ^^^ (x &&& z) ^^^ (y &&& z)

/-- Message-schedule extension: `acc` holds the words produced so far, most
recent first; each step appends one more word until the fuel runs out. -/
def sha256Extend : Nat → List Nat → List Nat
  | 0, acc => acc.reverse
  | k + 1, acc =>
      sha256Extend k
        (w32 (sigmaSmall1 (acc.getD 1 0) + acc.getD 6 0 +
              sigmaSmall0 (acc.getD 14 0) + acc.getD 15 0) :: acc)

/-- One SHA-256 round on the 8-word working state. -/
def sha256Round (st : List Nat) (kw : Nat × Nat) : List Nat :=
  match st with
  | [a, b, c, d, e, f, g, h] =>
      let t1 := w32 (h + sigmaBig1 e + chWord e f g + kw.1 + kw.2)
      let t2 := w32 (sigmaBig0 a + majWord a b c)
      [w32 (t1 + t2), a, b, c, w32 (d + t1), e, f, g]
  | other => other

/-- Compression of one 64-byte block into the 8-word chaining value. -/
def sha256Compress (hv : List Nat) (block : List Nat) : List Nat :=
  let ws := sha256Extend 48 (beWordsOfBytes block).reverse
  let st := (sha256K.zip ws).foldl sha256Round hv
  List.zipWith (fun x y => w32 (x + y)) hv st

/-- FIPS 180-4 padding: a `0x80` byte, zeros to 56 mod 64, and the bit length
as 8 big-endian bytes. -/
def sha256Pad (msg : List Nat) : List Nat :=
  msg ++ (0x80 :: List.replicate ((119 - msg.length % 64) % 64) 0)
      ++ beBytesOfNat 8 (8 * msg.length)

/-- Fold the chaining value over the 64-byte blocks (fuel-driven, so that the
kernel can evaluate it). -/
def sha256Blocks : Nat → List Nat → List Nat → List Nat
  | _, hv, [] => hv
  | 0, hv, _ => hv
  | fuel + 1, hv, bytes => sha256Blocks fuel (sha256Compress hv (bytes.take 64)) (bytes.drop 64)

/-- SHA-256 of a byte string, as 32 digest bytes. -/
def sha256 (msg : List Nat) : List Nat :=
  let padded := sha256Pad msg
  let hv := sha256Blocks padded.length sha256H0 padded
  (hv.map (beBytesOfNat 4)).flatten

/-- Known-answer check: SHA-256 of the empty string
(`e3b0c442...7852b855`). -/
theorem sha256_empty_vector :
    sha256 [] =
      [227, 176, 196, 66, 152, 252, 28, 20, 154, 251, 244, 200, 153, 111, 185,
       36, 39, 174, 65, 228, 100, 155, 147, 76, 164, 149, 153, 27, 120, 82,
       184, 85] := by decide

/-- Known-answer check: SHA-256 of `"abc"` (`ba7816bf...f20015ad`). -/
theorem sha256_abc_vector :
    sha256 [97, 98, 99] =
      [186, 120, 22, 191, 143, 1, 207, 234, 65, 65, 64, 222, 93, 174, 34, 35,
       176, 3, 97, 163, 150, 23, 122, 156, 180, 16, 255, 97, 242, 0, 21,
       173] := by decide

/-! ## RIPEMD-160

Executable transcription of the RIPEMD-160 reference description, used only
through `hash160` (the P2WPKH witness-program hash behind
`PublicKey::wpubkey_hash` in the Rust code). Words and the length field are
little-endian here, unlike SHA-256. -/

/-- Little-endian 32-bit words of a byte string (whole 4-byte groups). -/
def leWordsOfBytes : List Nat → List Nat
  | b0 :: b1 :: b2 :: b3 :: rest =>
      (((b3 * 256 + b2) * 256 + b1) * 256 + b0) :: leWordsOfBytes rest
  | _ => []

/-- Little-endian bytes of `n`, exactly `w` bytes wide. -/
def leBytesOfNat : Nat → Nat → List Nat
  | 0, _ => []
  | w + 1, n => n % 256 :: leBytesOfNat w (n / 256)

/-- Message-word selection order, left line. -/
def rmdIdxL : List Nat :=
  [0, 1, 2, 3, 4, 5, 6, 7, 8, 9, 10, 11, 12, 13, 14, 15,
   7, 4, 13, 1, 10, 6, 15, 3, 12, 0, 9, 5, 2, 14, 11, 8,
   3, 10, 14, 4, 9, 15, 8, 1, 2, 7, 0, 6, 13, 11, 5, 12,
   1, 9, 11, 10, 0, 8, 12, 4, 13, 3, 7, 15, 14, 5, 6, 2,
   4, 0, 5, 9, 7, 12, 2, 10, 14, 1, 3, 8, 11, 6, 15, 13]

/-- Message-word selection order, right line. -/
def rmdIdxR : List Nat :=
  [5, 14, 7, 0, 9, 2, 11, 4, 13, 6, 15, 8, 1, 10, 3, 12,
   6, 11, 3, 7, 0, 13, 5, 10, 14, 15, 8, 12, 4, 9, 1, 2,
   15, 5, 1, 3, 7, 14, 6, 9, 11, 8, 12, 2, 10, 0, 4, 13,
   8, 6, 4, 1, 3, 11, 15, 0, 5, 12, 2, 13, 9, 7, 10, 14,
   12, 15, 10, 4, 1, 5, 8, 7, 6, 2, 13, 14, 0, 3, 9, 11]

/-- Rotation amounts, left line. -/
def rmdRotL : List Nat :=
  [11, 14, 15, 12, 5, 8, 7, 9, 11, 13, 14, 15, 6, 7, 9, 8,
   7, 6, 8, 13, 11, 9, 7, 15, 7, 12, 15, 9, 11, 7, 13, 12,
   11, 13, 6, 7, 14, 9, 13, 15, 14, 8, 13, 6, 5, 12, 7, 5,
   11, 12, 14, 15, 14, 15, 9, 8, 9, 14, 5, 6, 8, 6, 5, 12,
   9, 15, 5, 11, 6, 8, 13, 12, 5, 12, 13, 14, 11, 8, 5, 6]

/-- Rotation amounts, right line. -/
def rmdRotR : List Nat :=
  [8, 9, 9, 11, 13, 15, 15, 5, 7, 7, 8, 11, 14, 14, 12, 6,
   9, 13, 15, 7, 12, 8, 9, 11, 7, 7, 12, 7, 6, 15, 13, 11,
   9, 7, 15, 11, 8, 6, 6, 14, 12, 13, 5, 14, 13, 13, 7, 5,
   15, 5, 8, 11, 14, 14, 6, 14, 6, 9, 12, 9, 12, 5, 15, 8,
   8, 5, 12, 9, 12, 5, 14, 6, 8, 13, 6, 5, 15, 13, 11, 11]

/-- The five round functions, selected by the 16-step group `j / 16`. -/
def rmdF (j x y z : Nat) : Nat :=
  if j < 16 then x ^^^ y ^^^ z
  else if j < 32 then (x &&& y) ||| ((x ^^^ 4294967295) &&& z)
  else if j < 48 then (x ||| (y ^^^ 4294967295)) ^^^ z
  else if j < 64 then (x &&& z) ||| (y &&& (z ^^^ 4294967295))
  else x ^^^ (y ||| (z ^^^ 4294967295))

/-- Round constants, left line, selected by the 16-step group. -/
def rmdKL (j : Nat) : Nat :=
  if j < 16 then 0 else if j < 32 then 1518500249 else if j < 48 then 1859775393
  else if j < 64 then 2400959708 else 2840853838

/-- Round constants, right line, selected by the 16-step group. -/
def rmdKR (j : Nat) : Nat :=
  if j < 16 then 1352829926 else if j < 32 then 1548603684 else if j < 48 then 1836072691
  else if j < 64 then 2053994217 else 0

/-- One line of 80 steps: `st = [a, b, c, d, e]`, `fSel j` picks the round
function, `idx`/`rot`/`kconst` the tables of that line, `x` the block words. -/
def rmdLine (fSel : Nat → Nat → Nat → Nat → Nat) (idx rot : List Nat)
    (kconst : Nat → Nat) (x : List Nat) : Nat → List Nat → List Nat
  | 0, st => st
  | fuel + 1, st =>
      match st with
      | [a, b, c, d, e] =>
          let j := 80 - (fuel + 1)
          let t := w32 (rotl32 (rot.getD j 0)
              (w32 (a + fSel j b c d + x.getD (idx.getD j 0) 0 + kconst j)) + e)
          rmdLine fSel idx rot kconst x fuel [e, t, b, rotl32 10 c, d]
      | other => other

/-- Compression of one 64-byte block into the 5-word chaining value. -/
def rmdCompress (hv : List Nat) (block : List Nat) : List Nat :=
  let x := leWordsOfBytes block
  let stl := rmdLine rmdF rmdIdxL rmdRotL rmdKL x 80 hv
  let str := rmdLine (fun j => rmdF (79 - j)) rmdIdxR rmdRotR rmdKR x 80 hv
  match hv, stl, str with
  | [h0, h1, h2, h3, h4], [al, bl, cl, dl, el], [ar, br, cr, dr, er] =>
      [w32 (h1 + cl + dr), w32 (h2 + dl + er), w32 (h3 + el + ar),
       w32 (h4 + al + br), w32 (h0 + bl + cr)]
  | hv0, _, _ => hv0

/-- MD-style padding with a little-endian 64-bit bit length. -/
def rmdPad (msg : List Nat) : List Nat :=
  msg ++ (0x80 :: List.replicate ((119 - msg.length % 64) % 64) 0)
      ++ leBytesOfNat 8 (8 * msg.length)

def rmdBlocks : Nat → List Nat → List Nat → List Nat
  | _, hv, [] => hv
  | 0, hv, _ => hv
  | fuel + 1, hv, bytes => rmdBlocks fuel (rmdCompress hv (bytes.take 64)) (bytes.drop 64)

/-- RIPEMD-160 of a byte string, as 20 digest bytes. -/
def ripemd160 (msg : List Nat) : List Nat :=
  let padded := rmdPad msg
  let hv := rmdBlocks padded.length
    [1732584193, 4023233417, 2562383102, 271733878, 3285377520] padded
  (hv.map (leBytesOfNat 4)).flatten

/-- Known-answer check: RIPEMD-160 of the empty string
(`9c1185a5...b2258d31`). -/
theorem ripemd160_empty_vector :
    ripemd160 [] =
      [156, 17, 133, 165, 197, 233, 252, 84, 97, 40,
       8, 151, 126, 232, 245, 72, 178, 37, 141, 49] := by decide

/-- Known-answer check: RIPEMD-160 of `"abc"` (`8eb208f7...f15a0bfc`). -/
theorem ripemd160_abc_vector :
    ripemd160 [97, 98, 99] =
      [142, 178, 8, 247, 224, 93, 152, 122, 155, 4,
       74, 142, 152, 198, 176, 135, 241, 90, 11, 252] := by decide

/-- `hash160`: RIPEMD-160 of SHA-256, the hash behind P2WPKH programs. -/
def hash160 (msg : List Nat) : List Nat := ripemd160 (sha256 msg)

/-! ## u64 arithmetic -/

/-- `2 ^ 64`. -/
def U64MOD : Nat := 18446744073709551616

/-- Rust `u64` subtraction with release-build wrap-around semantics. -/
def u64sub (a b : Nat) : Nat := (a % U64MOD + (U64MOD - b % U64MOD)) % U64MOD

/-- Rust `u64` multiplication with wrap-around semantics. -/
def u64mul (a b : Nat) : Nat := a * b % U64MOD

/-! ## Domain types (`src/bolt/channel.rs` and its collaborators)

Public keys are carried around as their 33-byte compressed serialization —
the only view of a key the verified code ever takes (`.serialize()`), apart
from the curve operations kept behind the `Secp` interfaces below. -/

/-- A secp256k1 public key, represented by its compressed serialization. -/
structure PublicKey where
  serialize : List Nat
  deriving DecidableEq

/-- `LocalPubkey` of `bolt/keyset.rs` (not under `src/`): the channel code
only ever reads its `key` field, so the embedding keeps just that. -/
structure LocalPubkey where
  key : PublicKey
  deriving DecidableEq

/-- Modelled from the spec: `LocalKeyset` (§3, "sets of basepoints") of
`bolt/keyset.rs`, which is not under `src/`; the fields are the ones
`src/bolt/channel.rs` reads and writes. -/
structure LocalKeyset where
  funding_pubkey : LocalPubkey
  revocation_basepoint : LocalPubkey
  payment_basepoint : LocalPubkey
  delayed_payment_basepoint : LocalPubkey
  htlc_basepoint : LocalPubkey
  first_per_commitment_point : LocalPubkey
  shutdown_scriptpubkey : Option (List Nat)
  static_remotekey : Bool
  deriving DecidableEq

/-- Modelled from the spec: `RemoteKeyset` (§3, keys "copied verbatim from
peer messages") of `bolt/keyset.rs`, not under `src/`. -/
structure RemoteKeyset where
  funding_pubkey : PublicKey
  revocation_basepoint : PublicKey
  payment_basepoint : PublicKey
  delayed_payment_basepoint : PublicKey
  htlc_basepoint : PublicKey
  first_per_commitment_point : PublicKey
  deriving DecidableEq

/-- Channel direction (`Direction` in `src/bolt/channel.rs`; the source
spells the outbound variant `Outbount`). -/
inductive Direction where
  | Inbound
  | Outbount
  deriving DecidableEq

/-- `Direction::is_inbound`. -/
def Direction.is_inbound : Direction → Bool
  | .Inbound => true
  | .Outbount => false

/-- `Direction::is_outbound`. -/
def Direction.is_outbound : Direction → Bool
  | .Inbound => false
  | .Outbount => true

/-- Modelled from the spec: the `Lifecycle` stage enum (§4.6) of
`bolt/mod.rs`, which is not under `src/`. -/
inductive Lifecycle where
  | Initial
  | Proposed
  | Accepted
  | Funding
  | Funded
  | Locked
  | Active
  | Reestablishing
  deriving DecidableEq

/-- Modelled from the spec: `ActiveChannelId` (§3), a tagged union
`Temporary(random id) | Final(derived id)` from the message catalog crate.
Ids are 32-byte strings. -/
inductive ActiveChannelId where
  | Temporary (id : List Nat)
  | Final (id : List Nat)
  deriving DecidableEq

/-- `ActiveChannelId::channel_id`: the final id, if already assigned. -/
def ActiveChannelId.channel_id : ActiveChannelId → Option (List Nat)
  | .Temporary _ => none
  | .Final i => some i

/-- `ActiveChannelId::temp_channel_id`: the temporary id, before a final one
is assigned. -/
def ActiveChannelId.temp_channel_id : ActiveChannelId → Option (List Nat)
  | .Temporary i => some i
  | .Final _ => none

/-- Modelled from the spec: the final channel id is "derived from funding
txid+output index" (§3; BOLT2 XORs the 16-bit index into the last two txid
bytes). -/
def channelIdFromFunding (funding_txid : List Nat) (funding_output_index : Nat) : List Nat :=
  funding_txid.take 30 ++
    [funding_txid.getD 30 0 ^^^ (funding_output_index / 256 % 256),
     funding_txid.getD 31 0 ^^^ (funding_output_index % 256)]

/-- `ActiveChannelId::with(funding_txid, funding_output_index)`. -/
def ActiveChannelId.withFunding (funding_txid : List Nat) (funding_output_index : Nat) :
    ActiveChannelId :=
  .Final (channelIdFromFunding funding_txid funding_output_index)

/-- `channel::Error` of the channel module (the two variants the verified
code constructs). -/
inductive ChannelError where
  | LifecycleMismatch (current : Lifecycle) (required : List Lifecycle)
  | PolicyViolation (message : String)
  deriving DecidableEq

/-- Outcome of a Rust computation that may return `Err` or `panic!`:
`panicked` marks an actual Rust panic (`expect`, `unimplemented!`), which is
not an error value handed to the caller. -/
inductive Outcome (ε : Type) (α : Type) where
  | panicked (msg : String)
  | failed (e : ε)
  | ok (v : α)
  deriving DecidableEq

/-- Modelled from the spec: `PeerParams` (§3) of `bolt/policy.rs`, not under
`src/`; the fields are the ones `src/bolt/channel.rs` reads. -/
structure PeerParams where
  dust_limit_satoshis : Nat
  max_htlc_value_in_flight_msat : Nat
  channel_reserve_satoshis : Nat
  htlc_minimum_msat : Nat
  to_self_delay : Nat
  max_accepted_htlcs : Nat
  deriving DecidableEq

/-- Modelled from the spec: `CommonParams` (§3) of `bolt/policy.rs`, not
under `src/`; `channel_type` is collapsed to the optional wire value that
`into_option` produces. -/
structure CommonParams where
  announce_channel : Bool
  feerate_per_kw : Nat
  channel_type : Option Nat
  deriving DecidableEq

/-- Modelled from the spec: `Policy` (§3, "immutable negotiation bounds")
of `bolt/policy.rs`, not under `src/`. Only the shape matters to the
claims: some remote-proposed parameters have configured bounds. -/
structure Policy where
  minimum_depth : Nat
  max_dust_limit_satoshis : Nat
  max_htlc_minimum_msat : Nat
  max_to_self_delay : Nat
  deriving DecidableEq

/-- The `open_channel` message as `src/bolt/channel.rs` composes and
consumes it (the message-catalog variant with the optional upfront shutdown
script and channel type). -/
structure OpenChannel where
  chain_hash : List Nat
  temporary_channel_id : List Nat
  funding_satoshis : Nat
  push_msat : Nat
  dust_limit_satoshis : Nat
  max_htlc_value_in_flight_msat : Nat
  channel_reserve_satoshis : Nat
  htlc_minimum_msat : Nat
  feerate_per_kw : Nat
  to_self_delay : Nat
  max_accepted_htlcs : Nat
  funding_pubkey : PublicKey
  revocation_basepoint : PublicKey
  payment_point : PublicKey
  delayed_payment_basepoint : PublicKey
  htlc_basepoint : PublicKey
  first_per_commitment_point : PublicKey
  shutdown_scriptpubkey : Option (List Nat)
  channel_flags : Nat
  channel_type : Option Nat
  deriving DecidableEq

/-- The `accept_channel` message as `src/bolt/channel.rs` composes and
consumes it. -/
structure AcceptChannel where
  temporary_channel_id : List Nat
  dust_limit_satoshis : Nat
  max_htlc_value_in_flight_msat : Nat
  channel_reserve_satoshis : Nat
  htlc_minimum_msat : Nat
  minimum_depth : Nat
  to_self_delay : Nat
  max_accepted_htlcs : Nat
  funding_pubkey : PublicKey
  revocation_basepoint : PublicKey
  payment_point : PublicKey
  delayed_payment_basepoint : PublicKey
  htlc_basepoint : PublicKey
  first_per_commitment_point : PublicKey
  shutdown_scriptpubkey : Option (List Nat)
  channel_type : Option Nat
  deriving DecidableEq

/-- `funding_created` (`src/message.rs`). -/
structure FundingCreated where
  temporary_channel_id : List Nat
  funding_txid : List Nat
  funding_output_index : Nat
  signature : List Nat
  deriving DecidableEq

/-- `funding_signed` (`src/message.rs`). -/
structure FundingSigned where
  channel_id : List Nat
  signature : List Nat
  deriving DecidableEq

/-- `funding_locked` (`src/message.rs`). -/
structure FundingLocked where
  channel_id : List Nat
  next_per_commitment_point : PublicKey
  deriving DecidableEq

/-- The subset of the `Messages` enum (`src/message.rs`) that
`Core::update_from_peer` matches on; every arm the code leaves empty is kept
as a payload-free constructor, and `OtherMessage` stands for the wildcard
arm. -/
inductive Messages where
  | OpenChannel (m : OpenChannel)
  | AcceptChannel (m : AcceptChannel)
  | FundingCreated (m : FundingCreated)
  | FundingSigned (m : FundingSigned)
  | FundingLocked (m : FundingLocked)
  | Shutdown
  | ClosingSigned
  | UpdateAddHtlc
  | UpdateFulfillHtlc
  | UpdateFailHtlc
  | UpdateFailMalformedHtlc
  | CommitmentSigned
  | RevokeAndAck
  | ChannelReestablish
  | OtherMessage
  deriving DecidableEq

/-- Modelled from the spec: `Policy::validate_inbound` (§4.6 — "runs policy
validation to produce negotiated remote parameters (fails with a
policy-violation error on out-of-bound values)") of `bolt/policy.rs`, not
under `src/`. It checks the remote-proposed values against the configured
bounds and, on success, returns the negotiated remote `PeerParams` taken
from the message. -/
def Policy.validate_inbound (p : Policy) (m : OpenChannel) : Except ChannelError PeerParams :=
  if p.max_dust_limit_satoshis < m.dust_limit_satoshis then
    .error (.PolicyViolation "dust_limit_satoshis is out of the policy bounds")
  else if p.max_htlc_minimum_msat < m.htlc_minimum_msat then
    .error (.PolicyViolation "htlc_minimum_msat is out of the policy bounds")
  else if p.max_to_self_delay < m.to_self_delay then
    .error (.PolicyViolation "to_self_delay is out of the policy bounds")
  else
    .ok { dust_limit_satoshis := m.dust_limit_satoshis
          max_htlc_value_in_flight_msat := m.max_htlc_value_in_flight_msat
          channel_reserve_satoshis := m.channel_reserve_satoshis
          htlc_minimum_msat := m.htlc_minimum_msat
          to_self_delay := m.to_self_delay
          max_accepted_htlcs := m.max_accepted_htlcs }

/-- Modelled from the spec: `Policy::confirm_outbound` (§4.6 — "runs policy
confirmation against previously-set local parameters") of `bolt/policy.rs`,
not under `src/`. -/
def Policy.confirm_outbound (p : Policy) (local_params_ : PeerParams) (m : AcceptChannel) :
    Except ChannelError PeerParams :=
  if p.max_dust_limit_satoshis < m.dust_limit_satoshis then
    .error (.PolicyViolation "dust_limit_satoshis is out of the policy bounds")
  else if local_params_.to_self_delay < m.to_self_delay then
    .error (.PolicyViolation "to_self_delay is out of the policy bounds")
  else
    .ok { dust_limit_satoshis := m.dust_limit_satoshis
          max_htlc_value_in_flight_msat := m.max_htlc_value_in_flight_msat
          channel_reserve_satoshis := m.channel_reserve_satoshis
          htlc_minimum_msat := m.htlc_minimum_msat
          to_self_delay := m.to_self_delay
          max_accepted_htlcs := m.max_accepted_htlcs }

/-! ## The channel `Core` (`src/bolt/channel.rs`, `struct Core`) -/

/-- The Bolt3 channel core state, field for field as in the source. -/
structure Core where
  stage : Lifecycle
  chain_hash : List Nat
  active_channel_id : ActiveChannelId
  funding_outpoint : List Nat × Nat
  local_amount_msat : Nat
  remote_amount_msat : Nat
  commitment_number : Nat
  commitment_sigs : List (List Nat)
  policy : Policy
  common_params : CommonParams
  local_params : PeerParams
  remote_params : PeerParams
  local_keys : LocalKeyset
  remote_keys : RemoteKeyset
  remote_per_commitment_point : PublicKey
  local_per_commitment_point : PublicKey
  direction : Direction
  deriving DecidableEq

/-- `Core::channel_id`. -/
def Core.channel_id (c : Core) : Option (List Nat) :=
  c.active_channel_id.channel_id

/-- `Core::temp_channel_id`. -/
def Core.temp_channel_id (c : Core) : Option (List Nat) :=
  c.active_channel_id.temp_channel_id

/-- `Core::set_temp_channel_id`. -/
def Core.set_temp_channel_id (c : Core) (temp_channel_id : List Nat) : Core :=
  { c with active_channel_id := .Temporary temp_channel_id }

/-- `Core::update_from_peer` (the `Extension` impl): a state-passing
rendition of the `&mut self` method. The returned state is the borrowed
state after the call — on the early `?` return inside the `OpenChannel` and
`AcceptChannel` arms it keeps every field assignment the code made before
the failing validation line. `funding_satoshis * 1000 - push_msat` is u64
arithmetic (the code has no overflow check; see the TODO list in the
source). -/
def Core.update_from_peer (c : Core) (message : Messages) :
    Except ChannelError Unit × Core :=
  match message with
  | .OpenChannel open_channel =>
      let c := { c with stage := .Proposed }
      let c := { c with direction := .Inbound }
      let c := { c with active_channel_id := .Temporary open_channel.temporary_channel_id }
      let c := { c with remote_amount_msat :=
                   u64sub (u64mul open_channel.funding_satoshis 1000) open_channel.push_msat }
      let c := { c with local_amount_msat := open_channel.push_msat }
      match c.policy.validate_inbound open_channel with
      | .error e => (.error e, c)
      | .ok params =>
          let c := { c with remote_params := params }
          let c := { c with remote_keys :=
                       { c.remote_keys with
                           funding_pubkey := open_channel.funding_pubkey
                           payment_basepoint := open_channel.payment_point
                           revocation_basepoint := open_channel.revocation_basepoint
                           delayed_payment_basepoint := open_channel.delayed_payment_basepoint
                           first_per_commitment_point := open_channel.first_per_commitment_point } }
          let c := { c with remote_per_commitment_point :=
                       open_channel.first_per_commitment_point }
          (.ok (), c)
  | .AcceptChannel accept_channel =>
      let c := { c with stage := .Accepted }
      match c.policy.confirm_outbound c.local_params accept_channel with
      | .error e => (.error e, c)
      | .ok params =>
          let c := { c with remote_params := params }
          let c := { c with remote_keys :=
                       { c.remote_keys with
                           funding_pubkey := accept_channel.funding_pubkey
                           payment_basepoint := accept_channel.payment_point
                           revocation_basepoint := accept_channel.revocation_basepoint
                           delayed_payment_basepoint := accept_channel.delayed_payment_basepoint
                           first_per_commitment_point := accept_channel.first_per_commitment_point } }
          let c := { c with remote_per_commitment_point :=
                       accept_channel.first_per_commitment_point }
          (.ok (), c)
  | .FundingCreated funding_created =>
      let c := { c with stage := .Funding }
      let c := { c with active_channel_id :=
                   (ActiveChannelId.withFunding funding_created.funding_txid
                     funding_created.funding_output_index) }
      (.ok (), c)
  | .FundingSigned funding_signed =>
      let c := { c with stage := .Funded }
      let c := { c with active_channel_id := .Final funding_signed.channel_id }
      let c := { c with commitment_sigs := c.commitment_sigs ++ [funding_signed.signature] }
      (.ok (), c)
  | .FundingLocked _ =>
      (.ok (), { c with stage := .Locked })
  | _ => (.ok (), c)

/-- `Core::refund_fee`: `724 * feerate_per_kw / 1000` (u64; cannot overflow
since `feerate_per_kw` is a u32). -/
def Core.refund_fee (c : Core) : Nat :=
  724 * c.common_params.feerate_per_kw / 1000

/-- The low-48-bit mask `LOWER_48_BITS` of the source. -/
def LOWER_48_BITS : Nat := 0x0000FFFFFFFFFFFF

/-- The obscuring factor computed inside `Core::obscured_commitment_number`:
SHA-256 of the two serialized payment basepoints ((remote, local) when the
channel is inbound, (local, remote) otherwise — the streaming engine input
is the concatenation), then the 8 digest bytes `[24..]` as a big-endian u64,
masked to the lower 48 bits. -/
def Core.commitment_obscuring_factor (c : Core) : Nat :=
  let msg :=
    if c.direction.is_inbound then
      c.remote_keys.payment_basepoint.serialize ++
        c.local_keys.payment_basepoint.key.serialize
    else
      c.local_keys.payment_basepoint.key.serialize ++
        c.remote_keys.payment_basepoint.serialize
  let obscuring_hash := sha256 msg
  beBytesToNat (obscuring_hash.drop 24) &&& LOWER_48_BITS

/-- `Core::obscured_commitment_number`: the 48-bit commitment number XORed
with the obscuring factor. -/
def Core.obscured_commitment_number (c : Core) : Nat :=
  (c.commitment_number &&& LOWER_48_BITS) ^^^ c.commitment_obscuring_factor

/-- `Core::compose_open_channel` (the private `&mut self` method): checks
the lifecycle stage first and, past the check, overwrites the negotiation
state and builds the message. `temp_channel_id().expect(..)` is a panic when
the active id is already final. -/
def Core.compose_open_channel (c : Core) (funding_sat push_msat : Nat)
    (policy_ : Policy) (common_params_ : CommonParams) (local_params_ : PeerParams)
    (local_keyset : LocalKeyset) : Outcome ChannelError OpenChannel × Core :=
  if c.stage ≠ Lifecycle.Initial ∧ c.stage ≠ Lifecycle.Reestablishing then
    (.failed (.LifecycleMismatch c.stage [.Initial, .Reestablishing]), c)
  else
    let c := { c with direction := .Outbount }
    let c := { c with policy := policy_ }
    let c := { c with common_params := common_params_ }
    let c := { c with local_params := local_params_ }
    let c := { c with local_keys := local_keyset }
    let c := { c with local_amount_msat := u64sub (u64mul funding_sat 1000) push_msat }
    let c := { c with remote_amount_msat := push_msat }
    match c.temp_channel_id with
    | none => (.panicked "initial channel state must always have a temporary channel id", c)
    | some temp_id =>
        (.ok { chain_hash := c.chain_hash
               temporary_channel_id := temp_id
               funding_satoshis := funding_sat
               push_msat := push_msat
               dust_limit_satoshis := local_params_.dust_limit_satoshis
               max_htlc_value_in_flight_msat := local_params_.max_htlc_value_in_flight_msat
               channel_reserve_satoshis := local_params_.channel_reserve_satoshis
               htlc_minimum_msat := local_params_.htlc_minimum_msat
               feerate_per_kw := common_params_.feerate_per_kw
               to_self_delay := local_params_.to_self_delay
               max_accepted_htlcs := local_params_.max_accepted_htlcs
               funding_pubkey := local_keyset.funding_pubkey.key
               revocation_basepoint := local_keyset.revocation_basepoint.key
               payment_point := local_keyset.payment_basepoint.key
               delayed_payment_basepoint := local_keyset.delayed_payment_basepoint.key
               htlc_basepoint := local_keyset.htlc_basepoint.key
               first_per_commitment_point := local_keyset.first_per_commitment_point.key
               shutdown_scriptpubkey := local_keyset.shutdown_scriptpubkey
               channel_flags := if common_params_.announce_channel then 1 else 0
               channel_type := common_params_.channel_type }, c)

/-- `Core::compose_accept_channel`: checks the lifecycle stage first;
mutates nothing in either outcome. `temp_channel_id().expect(..)` is a
panic when the active id is already final. -/
def Core.compose_accept_channel (c : Core) : Outcome ChannelError AcceptChannel × Core :=
  if c.stage ≠ Lifecycle.Initial ∧ c.stage ≠ Lifecycle.Reestablishing then
    (.failed (.LifecycleMismatch c.stage [.Initial, .Reestablishing]), c)
  else
    match c.temp_channel_id with
    | none => (.panicked "initial channel state must always have a temporary channel id", c)
    | some temp_id =>
        (.ok { temporary_channel_id := temp_id
               dust_limit_satoshis := c.local_params.dust_limit_satoshis
               max_htlc_value_in_flight_msat := c.local_params.max_htlc_value_in_flight_msat
               channel_reserve_satoshis := c.local_params.channel_reserve_satoshis
               htlc_minimum_msat := c.local_params.htlc_minimum_msat
               minimum_depth := c.policy.minimum_depth
               to_self_delay := c.local_params.to_self_delay
               max_accepted_htlcs := c.local_params.max_accepted_htlcs
               funding_pubkey := c.local_keys.funding_pubkey.key
               revocation_basepoint := c.local_keys.revocation_basepoint.key
               payment_point := c.local_keys.payment_basepoint.key
               delayed_payment_basepoint := c.local_keys.delayed_payment_basepoint.key
               htlc_basepoint := c.local_keys.htlc_basepoint.key
               first_per_commitment_point := c.local_keys.first_per_commitment_point.key
               shutdown_scriptpubkey := c.local_keys.shutdown_scriptpubkey
               channel_type := c.common_params.channel_type }, c)

/-! ## secp256k1 interface and `Core::revocationpubkey`

The curve operations live in the external `secp256k1` crate. Their API is
fallible (`mul_assign` and `combine` return `Result`); no claim depends on
actual curve arithmetic, so they are kept behind two small interfaces:
`SecpFallible` is the API as it is (used to study the failure handling,
claim C6), `SecpTotal` is the same API after the code's `expect` unwrap
(used on the value path of `apply`, where only success matters). -/

/-- The fallible secp256k1 tweak operations, as the crate exposes them. -/
structure SecpFallible where
  mul_tweak : PublicKey → List Nat → Option PublicKey
  combine : PublicKey → PublicKey → Option PublicKey

/-- The secp256k1 tweak operations with their `expect`-unwrapped results. -/
structure SecpTotal where
  mul_tweak : PublicKey → List Nat → PublicKey
  combine : PublicKey → PublicKey → PublicKey

/-- `Core::revocationpubkey`, value path: tweak the remote revocation
basepoint by `SHA256(revocation_basepoint || per_commitment_point)`, tweak
the remote per-commitment point by
`SHA256(per_commitment_point || revocation_basepoint)`, and combine the two
tweaked points. -/
def Core.revocationpubkey (c : Core) (S : SecpTotal) : PublicKey :=
  let revocation_tweak :=
    sha256 (c.remote_keys.revocation_basepoint.serialize ++
            c.remote_per_commitment_point.serialize)
  let tweaked_revocation_basepoint :=
    S.mul_tweak c.remote_keys.revocation_basepoint revocation_tweak
  let per_commitment_tweak :=
    sha256 (c.remote_per_commitment_point.serialize ++
            c.remote_keys.revocation_basepoint.serialize)
  let tweaked_per_commitment_point :=
    S.mul_tweak c.remote_per_commitment_point per_commitment_tweak
  S.combine tweaked_revocation_basepoint tweaked_per_commitment_point

/-- `Core::revocationpubkey` with the fallibility of the secp256k1 calls
kept visible: each of the three `expect("negligible probability")` unwraps
of the source becomes a `panicked` outcome when the underlying operation
fails. No path produces `failed`. -/
def Core.revocationpubkey_checked (c : Core) (F : SecpFallible) :
    Outcome ChannelError PublicKey :=
  let revocation_tweak :=
    sha256 (c.remote_keys.revocation_basepoint.serialize ++
            c.remote_per_commitment_point.serialize)
  match F.mul_tweak c.remote_keys.revocation_basepoint revocation_tweak with
  | none => .panicked "negligible probability"
  | some tweaked_revocation_basepoint =>
      let per_commitment_tweak :=
        sha256 (c.remote_per_commitment_point.serialize ++
                c.remote_keys.revocation_basepoint.serialize)
      match F.mul_tweak c.remote_per_commitment_point per_commitment_tweak with
      | none => .panicked "negligible probability"
      | some tweaked_per_commitment_point =>
          match F.combine tweaked_revocation_basepoint tweaked_per_commitment_point with
          | none => .panicked "negligible probability"
          | some pk => .ok pk

/-- Whether any tweak or combine step of the revocation-key derivation fails
under the fallible interface `F` at state `c`. -/
def Core.revocation_step_fails (c : Core) (F : SecpFallible) : Bool :=
  let revocation_tweak :=
    sha256 (c.remote_keys.revocation_basepoint.serialize ++
            c.remote_per_commitment_point.serialize)
  match F.mul_tweak c.remote_keys.revocation_basepoint revocation_tweak with
  | none => true
  | some tweaked_revocation_basepoint =>
      let per_commitment_tweak :=
        sha256 (c.remote_per_commitment_point.serialize ++
                c.remote_keys.revocation_basepoint.serialize)
      match F.mul_tweak c.remote_per_commitment_point per_commitment_tweak with
      | none => true
      | some tweaked_per_commitment_point =>
          (F.combine tweaked_revocation_basepoint tweaked_per_commitment_point).isNone

/-! ## Script generators (`trait ScriptGenerators` impls)

Scripts are byte lists. `bitcoin::PublicKey` (produced by `into_pk`) is its
`compressed` flag next to the key serialization; `into_pk` always sets
`compressed` — the derived `Ord` the key sorting relies on compares the flag
first and the serialization second. -/

/-- `bitcoin::PublicKey`, the output of `IntoPk::into_pk`. -/
structure BtcPubkey where
  compressed : Bool
  pkbytes : List Nat
  deriving DecidableEq

/-- `IntoPk::into_pk`: wrap a secp key as a compressed `bitcoin::PublicKey`. -/
def intoPk (k : PublicKey) : BtcPubkey := ⟨true, k.serialize⟩

/-- `PublicKey::to_bytes` as `Builder::push_key` serializes it (our keys are
always compressed, so this is the 33-byte form). -/
def BtcPubkey.to_bytes (k : BtcPubkey) : List Nat := k.pkbytes

/-- `PublicKey::wpubkey_hash`: the P2WPKH program hash, defined only for
compressed keys. -/
def BtcPubkey.wpubkey_hash (k : BtcPubkey) : Option (List Nat) :=
  if k.compressed then some (hash160 k.pkbytes) else none

/-- The derived `Ord` on `bitcoin::PublicKey` as `≤`: `compressed` flag
first (`false < true`), then the serialized key bytes lexicographically. -/
def btcPkLe (a b : BtcPubkey) : Bool :=
  match a.compressed, b.compressed with
  | false, true => true
  | true, false => false
  | _, _ => bytesLe a.pkbytes b.pkbytes

/-- `wallet::lex_order::LexOrder::lex_ordered` on a two-key vector: sort the
pair by the derived key order. -/
def lexOrdered2 (a b : BtcPubkey) : BtcPubkey × BtcPubkey :=
  if btcPkLe a b then (a, b) else (b, a)

/-- `Builder::push_slice` for data below 76 bytes: a one-byte length prefix
(every push in the generated scripts is a 33-byte key or shorter). -/
def pushData (bs : List Nat) : List Nat := bs.length :: bs

/-- Minimal little-endian script-number bytes of a non-negative integer
(with a zero pad byte when the top bit is set), as `Builder::push_int`
encodes numbers above 16. -/
def scriptNumBytes (n : Nat) : List Nat :=
  let le := ((leBytesOfNat 8 n).reverse.dropWhile (· == 0)).reverse
  if 0x80 ≤ le.getLastD 0 then le ++ [0] else le

/-- `Builder::push_int` for non-negative values: `OP_0`/`OP_PUSHNUM_n` for
0..16, a minimal data push otherwise. -/
def pushInt (n : Nat) : List Nat :=
  if n = 0 then [0x00]
  else if n ≤ 16 then [0x50 + n]
  else pushData (scriptNumBytes n)

/-- `LockScript::ln_funding`: `2 <key_lo> <key_hi> 2 OP_CHECKMULTISIG` over
the lexicographically ordered pair of funding keys (the amount argument is
ignored by the source too). -/
def LockScript.ln_funding (_amount : Nat) (local_pubkey : LocalPubkey)
    (remote_pubkey : PublicKey) : List Nat :=
  let pk := lexOrdered2 (intoPk local_pubkey.key) (intoPk remote_pubkey)
  0x52 :: pushData pk.1.to_bytes ++ pushData pk.2.to_bytes ++ [0x52, 0xae]

/-- `LockScript::ln_to_local`: the revocable, delayed self-payment script. -/
def LockScript.ln_to_local (_amount : Nat) (revocationpubkey local_delayedpubkey : PublicKey)
    (to_self_delay : Nat) : List Nat :=
  0x63 :: pushData (intoPk revocationpubkey).to_bytes ++ [0x67] ++ pushInt to_self_delay ++
    [0xb2, 0x75] ++ pushData (intoPk local_delayedpubkey).to_bytes ++ [0x68, 0xac]

/-- `LockScript::ln_to_remote_v1` is `unimplemented!` in the source: a
panic on every input. -/
def LockScript.ln_to_remote_v1 (_amount : Nat) (_remote_pubkey : PublicKey) :
    Outcome ChannelError (List Nat) :=
  .panicked "LockScript cannot be generated for to_remote v1 output"

/-- `LockScript::ln_to_remote_v2`: `<key> OP_CHECKSIGVERIFY 1 OP_CSV`. -/
def LockScript.ln_to_remote_v2 (_amount : Nat) (remote_pubkey : PublicKey) : List Nat :=
  pushData (intoPk remote_pubkey).to_bytes ++ [0xad] ++ pushInt 1 ++ [0xb2]

/-- `WitnessScript::ln_funding` delegates to the lock script. -/
def WitnessScript.ln_funding (amount : Nat) (local_pubkey : LocalPubkey)
    (remote_pubkey : PublicKey) : List Nat :=
  LockScript.ln_funding amount local_pubkey remote_pubkey

/-- `WitnessScript::ln_to_local` delegates to the lock script. -/
def WitnessScript.ln_to_local (amount : Nat) (revocationpubkey local_delayedpubkey : PublicKey)
    (to_self_delay : Nat) : List Nat :=
  LockScript.ln_to_local amount revocationpubkey local_delayedpubkey to_self_delay

/-- `WitnessScript::ln_to_remote_v1` is `unimplemented!` in the source as
well: a panic on every input. -/
def WitnessScript.ln_to_remote_v1 (_amount : Nat) (_remote_pubkey : PublicKey) :
    Outcome ChannelError (List Nat) :=
  .panicked "WitnessScript cannot be generated for to_remote v1 output"

/-- `WitnessScript::ln_to_remote_v2` delegates to the lock script. -/
def WitnessScript.ln_to_remote_v2 (amount : Nat) (remote_pubkey : PublicKey) : List Nat :=
  LockScript.ln_to_remote_v2 amount remote_pubkey

/-- `Script::to_p2wsh`: the v0 witness program committing to a script by its
SHA-256 (`OP_0` + 32-byte push). -/
def toP2wsh (witness_script : List Nat) : List Nat :=
  0x00 :: 0x20 :: sha256 witness_script

/-- `PubkeyScript::ln_funding`: P2WSH of the funding witness script. -/
def PubkeyScript.ln_funding (amount : Nat) (local_pubkey : LocalPubkey)
    (remote_pubkey : PublicKey) : List Nat :=
  toP2wsh (WitnessScript.ln_funding amount local_pubkey remote_pubkey)

/-- `PubkeyScript::ln_to_local`: P2WSH of the to_local witness script. -/
def PubkeyScript.ln_to_local (amount : Nat) (revocationpubkey local_delayedpubkey : PublicKey)
    (to_self_delay : Nat) : List Nat :=
  toP2wsh (WitnessScript.ln_to_local amount revocationpubkey local_delayedpubkey to_self_delay)

/-- `PubkeyScript::ln_to_remote_v1`: the P2WPKH program of the counterparty
payment key. The `expect("We just generated non-compressed key")` of the
source is the `panicked` branch, taken only for a non-compressed key. -/
def PubkeyScript.ln_to_remote_v1 (_amount : Nat) (remote_pubkey : PublicKey) :
    Outcome ChannelError (List Nat) :=
  match (intoPk remote_pubkey).wpubkey_hash with
  | some h => .ok (0x00 :: 0x14 :: h)
  | none => .panicked "We just generated non-compressed key"

/-- `PubkeyScript::ln_to_remote_v2`: P2WSH of the v2 witness script. -/
def PubkeyScript.ln_to_remote_v2 (amount : Nat) (remote_pubkey : PublicKey) : List Nat :=
  toP2wsh (WitnessScript.ln_to_remote_v2 amount remote_pubkey)

/-- A transaction output. -/
structure TxOut where
  value : Nat
  script_pubkey : List Nat
  deriving DecidableEq

/-- The PSBT output metadata the generators fill (`witness_script` is the
only field the commitment outputs set). -/
structure PsbtOut where
  witness_script : Option (List Nat)
  deriving DecidableEq

/-- `(TxOut, psbt::Output)::ln_to_local`. -/
def TxOutPair.ln_to_local (amount : Nat) (revocationpubkey local_delayedpubkey : PublicKey)
    (to_self_delay : Nat) : TxOut × PsbtOut :=
  let witness_script :=
    WitnessScript.ln_to_local amount revocationpubkey local_delayedpubkey to_self_delay
  let script_pubkey :=
    PubkeyScript.ln_to_local amount revocationpubkey local_delayedpubkey to_self_delay
  (⟨amount, script_pubkey⟩, ⟨some witness_script⟩)

/-- `(TxOut, psbt::Output)::ln_to_remote_v1`: builds the P2WPKH output,
propagating the (unreachable) panic of the pubkey-script level. -/
def TxOutPair.ln_to_remote_v1 (amount : Nat) (remote_pubkey : PublicKey) :
    Outcome ChannelError (TxOut × PsbtOut) :=
  match PubkeyScript.ln_to_remote_v1 amount remote_pubkey with
  | .ok script_pubkey => .ok (⟨amount, script_pubkey⟩, ⟨none⟩)
  | .panicked m => .panicked m
  | .failed e => .failed e

/-! ## The commitment transaction template (`ChannelExtension::apply`) -/

/-- Modelled from the spec: the `TransactionTemplate`/`TxGraph` (§3 —
"version, locktime, sequence, ordered output list") of the generic channel
module, not under `src/`; only the four fields `apply` assigns are kept. -/
structure TxGraph where
  cmt_version : Nat
  cmt_locktime : Nat
  cmt_sequence : Nat
  cmt_outs : List (TxOut × PsbtOut)
  deriving DecidableEq

/-- `ChannelExtension::apply` for `Core`: fills the commitment-transaction
template. The `obscured_commitment as u32` cast is an explicit `% 2 ^ 32`;
the output amount subtractions are u64 (wrapping); the outputs are pushed in
source order — counterparty `to_local` first, own `to_remote` second. The
possible panic of the to_remote v1 generator is propagated. -/
def Core.apply (c : Core) (S : SecpTotal) (tx_graph : TxGraph) :
    Outcome ChannelError TxGraph :=
  let obscured_commitment := c.obscured_commitment_number
  let lock_time := (0x20 <<< 24) ||| (obscured_commitment % 4294967296 &&& 0x00FFFFFF)
  let sequence := (0x80 <<< 24) ||| (obscured_commitment % 4294967296 &&& 0x00FFFFFF)
  let revocationpubkey := c.revocationpubkey S
  let fee := c.refund_fee
  let fees := if c.direction = Direction.Outbount then (fee, 0) else (0, fee)
  let outs :=
    if 0 < c.remote_amount_msat then
      [TxOutPair.ln_to_local (u64sub (c.remote_amount_msat / 1000) fees.2)
         revocationpubkey c.remote_keys.delayed_payment_basepoint
         c.remote_params.to_self_delay]
    else []
  if 0 < c.local_amount_msat then
    match TxOutPair.ln_to_remote_v1 (u64sub (c.local_amount_msat / 1000) fees.1)
        c.local_keys.payment_basepoint.key with
    | .ok pair =>
        .ok { tx_graph with
                cmt_version := 2
                cmt_locktime := lock_time
                cmt_sequence := sequence
                cmt_outs := outs ++ [pair] }
    | .panicked m => .panicked m
    | .failed e => .failed e
  else
    .ok { tx_graph with
            cmt_version := 2
            cmt_locktime := lock_time
            cmt_sequence := sequence
            cmt_outs := outs }

/-! ## The `Channel` wrapper -/

/-- Modelled from the spec: the funding information of the generic `Channel`
(§6, "funding transaction outpoint" with its amount), not under `src/`; only
the amount that `set_funding_amount` writes is kept. -/
structure Funding where
  amount : Nat
  deriving DecidableEq

/-- The generic `Channel` as far as `src/bolt/channel.rs` touches it: its
funding and its `Core` constructor extension (the HTLC extension registry is
outside every claim). -/
structure Channel where
  funding : Funding
  constructor_core : Core
  deriving DecidableEq

/-- Modelled from the spec: `Channel::set_funding_amount` of the generic
channel module, not under `src/`: records the funding amount on the channel. -/
def Channel.set_funding_amount (ch : Channel) (amount : Nat) : Channel :=
  { ch with funding := { amount := amount } }

/-- `Channel::compose_open_channel` (`src/bolt/channel.rs`, lines 159-177):
sets the funding amount first — before the constructor checks the lifecycle
stage — then delegates to `Core::compose_open_channel`. -/
def Channel.compose_open_channel (ch : Channel) (funding_sat push_msat : Nat)
    (policy_ : Policy) (common_params_ : CommonParams) (local_params_ : PeerParams)
    (local_keys_ : LocalKeyset) : Outcome ChannelError OpenChannel × Channel :=
  let ch := ch.set_funding_amount funding_sat
  let r := ch.constructor_core.compose_open_channel funding_sat push_msat
    policy_ common_params_ local_params_ local_keys_
  (r.1, { ch with constructor_core := r.2 })

/-- `Channel::compose_accept_channel`: delegates to the constructor. -/
def Channel.compose_accept_channel (ch : Channel) :
    Outcome ChannelError AcceptChannel × Channel :=
  let r := ch.constructor_core.compose_accept_channel
  (r.1, { ch with constructor_core := r.2 })

/-! ## The standalone obscuring-factor function -/

/-- `compute_obscuring_factor` (`src/bolt/channel.rs`, lines 1032-1050), the
free function at the bottom of the file: note that it feeds the basepoints
to the hash in the opposite order from `Core::obscured_commitment_number` —
(local, remote) when inbound — and returns the full big-endian u64 of the
digest bytes `[24..]`, without the 48-bit mask. -/
def compute_obscuring_factor (direction : Direction)
    (local_payment_basepoint remote_payment_basepoint : PublicKey) : Nat :=
  let msg :=
    if direction.is_inbound then
      local_payment_basepoint.serialize ++ remote_payment_basepoint.serialize
    else
      remote_payment_basepoint.serialize ++ local_payment_basepoint.serialize
  let obscuring_hash := sha256 msg
  beBytesToNat (obscuring_hash.drop 24)

/-! ## Wire codec (`src/primitives.rs`) -/

/-- The codec error type (`Error` of the encoding crate; the variants the
verified code can produce). -/
inductive CodecError where
  | TooLargeData (n : Nat)
  | DataIntegrityError (message : String)
  | DataNotEntirelyConsumed
  | IoError
  deriving DecidableEq

/-- `usize::lightning_encode`: a value above `u16::MAX` fails with
`TooLargeData`; otherwise the two big-endian bytes of the value as a u16 are
written. The returned list is what reached the sink. -/
def usize_lightning_encode (n : Nat) : Except CodecError (List Nat) :=
  if 65535 < n then .error (.TooLargeData n)
  else .ok (beBytesOfNat 2 n)

/-- `usize::lightning_decode`: read exactly two bytes, big-endian; a shorter
stream is an IO error. Returns the value and the unconsumed rest. -/
def usize_lightning_decode (source : List Nat) : Except CodecError (Nat × List Nat) :=
  match source with
  | b0 :: b1 :: rest => .ok (b0 * 256 + b1, rest)
  | _ => .error .IoError

/-- Modelled from the spec: the `Vec<u8>` encoding of the crate's collection
module (§4.1 scheme (a), §8 — "a 16-bit big-endian length prefix" followed
by the elements), not under `src/`. -/
def vec_u8_lightning_encode (v : List Nat) : Except CodecError (List Nat) :=
  match usize_lightning_encode v.length with
  | .error e => .error e
  | .ok prefix_bytes => .ok (prefix_bytes ++ v)

/-! ## Helper lemmas -/

instance instDecEqExcept {ε α : Type} [DecidableEq ε] [DecidableEq α] :
    DecidableEq (Except ε α) := fun a b =>
  match a, b with
  | .error x, .error y =>
      if h : x = y then .isTrue (congrArg Except.error h)
      else .isFalse fun hc => h (Except.error.inj hc)
  | .ok x, .ok y =>
      if h : x = y then .isTrue (congrArg Except.ok h)
      else .isFalse fun hc => h (Except.ok.inj hc)
  | .error _, .ok _ => .isFalse fun hc => Except.noConfusion hc
  | .ok _, .error _ => .isFalse fun hc => Except.noConfusion hc

theorem beBytesOfNat_length (w n : Nat) : (beBytesOfNat w n).length = w := by
  induction w generalizing n with
  | zero => rfl
  | succ k ih => simp [beBytesOfNat, ih]

theorem sha256Round_length (st : List Nat) (kw : Nat × Nat) :
    (sha256Round st kw).length = st.length := by
  unfold sha256Round
  split
  · simp_all
  · rfl

theorem foldl_sha256Round_length (l : List (Nat × Nat)) (st : List Nat) :
    (l.foldl sha256Round st).length = st.length := by
  induction l generalizing st with
  | nil => rfl
  | cons x xs ih => rw [List.foldl_cons, ih, sha256Round_length]

theorem sha256Compress_length (hv block : List Nat) :
    (sha256Compress hv block).length = hv.length := by
  unfold sha256Compress
  simp [foldl_sha256Round_length]

theorem sha256Blocks_length (fuel : Nat) (hv bytes : List Nat) :
    (sha256Blocks fuel hv bytes).length = hv.length := by
  induction fuel generalizing hv bytes with
  | zero => cases bytes <;> rfl
  | succ k ih =>
    cases bytes with
    | nil => rfl
    | cons b bs =>
      simp [sha256Blocks, ih, sha256Compress_length]

theorem flatten_map_be4_length (hv : List Nat) :
    ((hv.map (beBytesOfNat 4)).flatten).length = 4 * hv.length := by
  induction hv with
  | nil => rfl
  | cons x xs ih =>
    simp only [List.map_cons, List.flatten_cons, List.length_append, ih,
      beBytesOfNat_length, List.length_cons]
    omega

theorem sha256_length (msg : List Nat) : (sha256 msg).length = 32 := by
  unfold sha256
  rw [flatten_map_be4_length, sha256Blocks_length]
  rfl

theorem u64sub_eq_sub (a b : Nat) (ha : a < U64MOD) (hb : b ≤ a) :
    u64sub a b = a - b := by
  unfold u64sub U64MOD at *
  omega

theorem btcPkLe_total (a b : BtcPubkey) : btcPkLe a b = true ∨ btcPkLe b a = true := by
  rcases a with ⟨ac, ab⟩
  rcases b with ⟨bc, bb⟩
  cases ac <;> cases bc <;> simp [btcPkLe] <;> exact bytesLe_total ab bb

theorem btcPkLe_antisymm (a b : BtcPubkey) (h1 : btcPkLe a b = true)
    (h2 : btcPkLe b a = true) : a = b := by
  rcases a with ⟨ac, ab⟩
  rcases b with ⟨bc, bb⟩
  cases ac <;> cases bc <;> simp [btcPkLe] at h1 h2 ⊢
  · exact bytesLe_antisymm ab bb h1 h2
  · exact bytesLe_antisymm ab bb h1 h2

/-! ## Concrete fixtures for the closed theorems -/

def dumbKey : PublicKey := ⟨0x02 :: List.replicate 32 0x11⟩

def paymentLocalPk : PublicKey := ⟨0x02 :: List.replicate 32 0x07⟩

def paymentRemotePk : PublicKey := ⟨0x03 :: List.replicate 32 0x09⟩

def baseLocalKeys : LocalKeyset :=
  ⟨⟨dumbKey⟩, ⟨dumbKey⟩, ⟨paymentLocalPk⟩, ⟨dumbKey⟩, ⟨dumbKey⟩, ⟨dumbKey⟩, none, false⟩

def baseRemoteKeys : RemoteKeyset :=
  ⟨dumbKey, dumbKey, paymentRemotePk, dumbKey, dumbKey, dumbKey⟩

def basePolicy : Policy := ⟨3, 1000, 1000, 2016⟩

def basePeerParams : PeerParams := ⟨546, 1000000000, 10000, 100, 144, 30⟩

def baseCommonParams : CommonParams := ⟨true, 2000, none⟩

/-- A freshly constructed channel core: `Initial` stage, a temporary id, no
funds, the base policy and parameters. -/
def testCore : Core :=
  { stage := .Initial
    chain_hash := List.replicate 32 0
    active_channel_id := .Temporary (List.replicate 32 1)
    funding_outpoint := (List.replicate 32 0, 0)
    local_amount_msat := 0
    remote_amount_msat := 0
    commitment_number := 0
    commitment_sigs := []
    policy := basePolicy
    common_params := baseCommonParams
    local_params := basePeerParams
    remote_params := basePeerParams
    local_keys := baseLocalKeys
    remote_keys := baseRemoteKeys
    remote_per_commitment_point := dumbKey
    local_per_commitment_point := dumbKey
    direction := .Outbount }

/-- A secp interface whose operations all fail, to probe the failure
handling of `revocationpubkey`. -/
def failSecp : SecpFallible := ⟨fun _ _ => none, fun _ _ => none⟩

/-- A trivially succeeding total secp interface for evaluating `apply` on
concrete states (no claim depends on the actual curve values). -/
def baseSecp : SecpTotal := ⟨fun p _ => p, fun p _ => p⟩

/-- A policy-passing `open_channel` message. -/
def passingOpen : OpenChannel :=
  { chain_hash := List.replicate 32 0
    temporary_channel_id := List.replicate 32 2
    funding_satoshis := 100000
    push_msat := 0
    dust_limit_satoshis := 546
    max_htlc_value_in_flight_msat := 1000
    channel_reserve_satoshis := 1000
    htlc_minimum_msat := 100
    feerate_per_kw := 2000
    to_self_delay := 144
    max_accepted_htlcs := 30
    funding_pubkey := dumbKey
    revocation_basepoint := dumbKey
    payment_point := paymentRemotePk
    delayed_payment_basepoint := dumbKey
    htlc_basepoint := dumbKey
    first_per_commitment_point := dumbKey
    shutdown_scriptpubkey := none
    channel_flags := 0
    channel_type := none }

/-- An `open_channel` message whose dust limit violates `basePolicy`. -/
def policyBreakingOpen : OpenChannel := { passingOpen with dust_limit_satoshis := 100000 }

/-- A `funding_created` message fixing the funding outpoint. -/
def testFundingCreated : FundingCreated :=
  ⟨List.replicate 32 1, List.replicate 32 5, 1, List.replicate 64 0⟩

/-- The opposite channel direction (used to state how the standalone
obscuring-factor function relates to the one inside `Core`). -/
def flipDirection : Direction → Direction
  | .Inbound => .Outbount
  | .Outbount => .Inbound

/-- An inbound variant of the test core (payment basepoints
`paymentLocalPk`/`paymentRemotePk`). -/
def inboundCore : Core := { testCore with direction := .Inbound }

/-- A channel whose core is past the stages that allow composing open/accept
messages, with no funding amount recorded yet. -/
def blockedChannel : Channel := ⟨⟨0⟩, { testCore with stage := .Proposed }⟩

/-! ## Claim theorems -/

/-- C4: for every channel state, `obscured_commitment_number()` equals the
commitment number masked to its low 48 bits, XORed with the obscuring
factor, where the factor is the low 48 bits of the big-endian interpretation
of the last 8 bytes of SHA-256 over the two serialized payment basepoints in
order (remote, local) when the direction is inbound and (local, remote)
otherwise. -/
theorem obscured_commitment_number_matches_spec (c : Core) :
    c.obscured_commitment_number =
      (c.commitment_number % 2 ^ 48) ^^^
        beBytesToNat (lastBytes 8 (sha256
          (if c.direction = Direction.Inbound then
            c.remote_keys.payment_basepoint.serialize ++
              c.local_keys.payment_basepoint.key.serialize
          else
            c.local_keys.payment_basepoint.key.serialize ++
              c.remote_keys.payment_basepoint.serialize))) % 2 ^ 48 := by
  have hmask : LOWER_48_BITS = 2 ^ 48 - 1 := by decide
  unfold Core.obscured_commitment_number Core.commitment_obscuring_factor lastBytes
  rw [hmask, Nat.and_pow_two_sub_one_eq_mod, Nat.and_pow_two_sub_one_eq_mod]
  cases hd : c.direction <;> simp [Direction.is_inbound, hd, sha256_length]

/-- C10, amended: the standalone `compute_obscuring_factor` uses the
opposite basepoint order from `Core::obscured_commitment_number`, so its low
48 bits equal the factor computed inside `Core` for the OPPOSITE direction
(equivalently, for swapped local/remote basepoints), not for the same
direction. -/
theorem compute_obscuring_factor_opposite_agreement (c : Core) :
    compute_obscuring_factor (flipDirection c.direction)
        c.local_keys.payment_basepoint.key c.remote_keys.payment_basepoint % 2 ^ 48 =
      c.commitment_obscuring_factor := by
  have hmask : LOWER_48_BITS = 2 ^ 48 - 1 := by decide
  unfold Core.commitment_obscuring_factor compute_obscuring_factor
  rw [hmask, Nat.and_pow_two_sub_one_eq_mod]
  cases hd : c.direction <;> simp [flipDirection, Direction.is_inbound, hd]

/-- C10, counterexample: for an inbound channel with distinct payment
basepoints, the low 48 bits of
`compute_obscuring_factor(direction, local, remote)` differ from the
obscuring factor computed inside `Core::obscured_commitment_number` for the
same direction and the same basepoints. -/
theorem compute_obscuring_factor_order_mismatch :
    compute_obscuring_factor inboundCore.direction
        inboundCore.local_keys.payment_basepoint.key
        inboundCore.remote_keys.payment_basepoint % 2 ^ 48 ≠
      inboundCore.commitment_obscuring_factor := by decide

/-- C6, amended: every tweak or combine step of the counterparty
revocation-key derivation is a fallible secp256k1 call, but
`Core::revocationpubkey` unwraps each with `expect("negligible
probability")`: when any step fails the derivation PANICS with that message,
and it never returns an error value. -/
theorem revocationpubkey_panics_on_failure (c : Core) (F : SecpFallible) :
    (∀ e, c.revocationpubkey_checked F ≠ .failed e) ∧
    (c.revocationpubkey_checked F = .panicked "negligible probability" ↔
      c.revocation_step_fails F = true) := by
  unfold Core.revocationpubkey_checked Core.revocation_step_fails
  cases h1 : F.mul_tweak c.remote_keys.revocation_basepoint
      (sha256 (c.remote_keys.revocation_basepoint.serialize ++
        c.remote_per_commitment_point.serialize)) with
  | none => simp [h1]
  | some t1 =>
    cases h2 : F.mul_tweak c.remote_per_commitment_point
        (sha256 (c.remote_per_commitment_point.serialize ++
          c.remote_keys.revocation_basepoint.serialize)) with
    | none => simp [h1, h2]
    | some t2 =>
      cases h3 : F.combine t1 t2 with
      | none => simp [h1, h2, h3]
      | some pk => simp [h1, h2, h3]

/-- C6, counterexample: at a concrete channel state, with the secp tweak
calls failing, the derivation panics (the `expect` message) instead of
returning an error value — refuting, at this input, the claim that a failed
tweak/combine step is signaled as an error result and that the path never
panics. -/
theorem revocationpubkey_panic_counterexample :
    testCore.revocation_step_fails failSecp = true ∧
    testCore.revocationpubkey_checked failSecp = .panicked "negligible probability" ∧
    ∀ e, testCore.revocationpubkey_checked failSecp ≠ Outcome.failed e := by
  refine ⟨rfl, rfl, ?_⟩
  intro e h
  rw [show testCore.revocationpubkey_checked failSecp =
    .panicked "negligible probability" from rfl] at h
  exact Outcome.noConfusion h

/-- C7, amended: for every amount and public key the to_remote-v1 generator
returns a value at the pubkey-script (witness-program) level and at the
transaction-output level, but BOTH the bare spend-condition (`LockScript`)
level and the witness-script (`WitnessScript`) level are undefined
(`unimplemented!`, a panic) — not only the spend-condition level. -/
theorem to_remote_v1_level_definedness (amount : Nat) (pk : PublicKey) :
    PubkeyScript.ln_to_remote_v1 amount pk =
      .ok (0x00 :: 0x14 :: hash160 pk.serialize) ∧
    TxOutPair.ln_to_remote_v1 amount pk =
      .ok (⟨amount, 0x00 :: 0x14 :: hash160 pk.serialize⟩, ⟨none⟩) ∧
    LockScript.ln_to_remote_v1 amount pk =
      .panicked "LockScript cannot be generated for to_remote v1 output" ∧
    WitnessScript.ln_to_remote_v1 amount pk =
      .panicked "WitnessScript cannot be generated for to_remote v1 output" :=
  ⟨rfl, rfl, rfl, rfl⟩

/-- C7, counterexample: at the witness-script level the to_remote-v1
generator does NOT return a value — it panics (`unimplemented!`) at this
concrete amount and key. -/
theorem to_remote_v1_witness_level_panic :
    WitnessScript.ln_to_remote_v1 1000 dumbKey =
      .panicked "WitnessScript cannot be generated for to_remote v1 output" ∧
    ∀ s, WitnessScript.ln_to_remote_v1 1000 dumbKey ≠ Outcome.ok s :=
  ⟨rfl, fun _ h => Outcome.noConfusion h⟩

/-- C8: `ln_funding` over swapped key arguments produces byte-identical
scripts, and the script is the canonical 2-of-2 multisig over the
lexicographically sorted key pair. -/
theorem ln_funding_swap_invariant (amount : Nat) (k1 k2 : PublicKey) :
    LockScript.ln_funding amount ⟨k1⟩ k2 = LockScript.ln_funding amount ⟨k2⟩ k1 ∧
    ∃ p q, btcPkLe p q = true ∧
      LockScript.ln_funding amount ⟨k1⟩ k2 =
        0x52 :: pushData p.to_bytes ++ pushData q.to_bytes ++ [0x52, 0xae] := by
  unfold LockScript.ln_funding lexOrdered2
  by_cases h12 : btcPkLe (intoPk k1) (intoPk k2) = true
  · by_cases h21 : btcPkLe (intoPk k2) (intoPk k1) = true
    · have he := btcPkLe_antisymm _ _ h12 h21
      exact ⟨by simp [h12, h21, he], _, _, h12, by simp [h12]⟩
    · exact ⟨by simp [h12, h21], _, _, h12, by simp [h12]⟩
  · have h21 : btcPkLe (intoPk k2) (intoPk k1) = true :=
      (btcPkLe_total _ _).resolve_left h12
    exact ⟨by simp [h12, h21], _, _, h21, by simp [h12]⟩

/-- C9: `usize::lightning_encode` fails with `TooLargeData(n)` exactly when
`n > 65535`; otherwise it writes exactly the two big-endian bytes of `n`,
which `usize::lightning_decode` reads back as `n` with nothing left over;
and a length-prefixed byte collection of length `L ≤ 65535` encodes to
exactly `2 + L` bytes. -/
theorem usize_lightning_codec_spec (n : Nat) (v : List Nat) :
    (usize_lightning_encode n = .error (.TooLargeData n) ↔ 65535 < n) ∧
    (n ≤ 65535 →
      usize_lightning_encode n = .ok [n / 256 % 256, n % 256] ∧
      usize_lightning_decode [n / 256 % 256, n % 256] = .ok (n, [])) ∧
    (v.length ≤ 65535 →
      ∃ out, vec_u8_lightning_encode v = .ok out ∧ out.length = 2 + v.length) := by
  refine ⟨?_, ?_, ?_⟩
  · unfold usize_lightning_encode
    by_cases h : 65535 < n <;> simp [h]
  · intro h
    have hn : ¬ 65535 < n := Nat.not_lt.mpr h
    refine ⟨by simp [usize_lightning_encode, hn, beBytesOfNat], ?_⟩
    unfold usize_lightning_decode
    have hd : n / 256 % 256 = n / 256 := Nat.mod_eq_of_lt (by omega)
    simp only [hd, Except.ok.injEq, Prod.mk.injEq, and_true]
    omega
  · intro h
    refine ⟨beBytesOfNat 2 v.length ++ v, ?_, by simp [beBytesOfNat_length]⟩
    simp [vec_u8_lightning_encode, usize_lightning_encode, Nat.not_lt.mpr h]

/-- C1, amended: `compose_open_channel`/`compose_accept_channel` fail with
`LifecycleMismatch` — carrying the current stage and the allowed set
`[Initial, Reestablishing]` — exactly when the stage is outside that set,
and after a failed call the entire `Core` state is unchanged; BUT
`Channel::compose_open_channel` sets the channel funding amount before the
stage check runs, so the funding amount equals the requested value even
after a failed call (it is not byte-for-byte unchanged). -/
theorem compose_lifecycle_gate (ch : Channel) (funding_sat push_msat : Nat)
    (policy_ : Policy) (common_params_ : CommonParams) (local_params_ : PeerParams)
    (local_keys_ : LocalKeyset) :
    ((∃ cur req, (ch.compose_open_channel funding_sat push_msat policy_ common_params_
        local_params_ local_keys_).1 = .failed (.LifecycleMismatch cur req)) ↔
      (ch.constructor_core.stage ≠ Lifecycle.Initial ∧
       ch.constructor_core.stage ≠ Lifecycle.Reestablishing)) ∧
    ((∃ cur req, ch.compose_accept_channel.1 = .failed (.LifecycleMismatch cur req)) ↔
      (ch.constructor_core.stage ≠ Lifecycle.Initial ∧
       ch.constructor_core.stage ≠ Lifecycle.Reestablishing)) ∧
    (ch.constructor_core.stage ≠ Lifecycle.Initial ∧
       ch.constructor_core.stage ≠ Lifecycle.Reestablishing →
      ch.compose_open_channel funding_sat push_msat policy_ common_params_
          local_params_ local_keys_ =
        (.failed (.LifecycleMismatch ch.constructor_core.stage
            [.Initial, .Reestablishing]),
         { ch with funding := ⟨funding_sat⟩ }) ∧
      ch.compose_accept_channel =
        (.failed (.LifecycleMismatch ch.constructor_core.stage
            [.Initial, .Reestablishing]), ch)) := by
  obtain ⟨⟨fund⟩, core⟩ := ch
  by_cases hb : core.stage ≠ Lifecycle.Initial ∧ core.stage ≠ Lifecycle.Reestablishing
  · refine ⟨?_, ?_, ?_⟩
    · simp [Channel.compose_open_channel, Channel.set_funding_amount,
        Core.compose_open_channel, hb]
    · simp [Channel.compose_accept_channel, Core.compose_accept_channel, hb]
    · intro _
      constructor
      · simp [Channel.compose_open_channel, Channel.set_funding_amount,
          Core.compose_open_channel, hb]
      · simp [Channel.compose_accept_channel, Core.compose_accept_channel, hb]
  · refine ⟨?_, ?_, fun hcontra => absurd hcontra hb⟩
    · simp only [Channel.compose_open_channel, Channel.set_funding_amount,
        Core.compose_open_channel, if_neg hb]
      cases haci : core.active_channel_id <;>
        simp [Core.temp_channel_id, ActiveChannelId.temp_channel_id, haci, hb]
    · simp only [Channel.compose_accept_channel, Core.compose_accept_channel, if_neg hb]
      cases haci : core.active_channel_id <;>
        simp [Core.temp_channel_id, ActiveChannelId.temp_channel_id, haci, hb]

/-- C1, counterexample: on a channel whose stage is `Proposed`, composing an
open-channel message fails with the lifecycle mismatch, yet the channel
state after the failed call differs from the state before it — the funding
amount has been overwritten with the requested 42 (it was 0). -/
theorem compose_open_channel_failure_mutates_funding :
    (blockedChannel.compose_open_channel 42 0 basePolicy baseCommonParams basePeerParams
        baseLocalKeys).1 =
      .failed (.LifecycleMismatch .Proposed [.Initial, .Reestablishing]) ∧
    (blockedChannel.compose_open_channel 42 0 basePolicy baseCommonParams basePeerParams
        baseLocalKeys).2.funding.amount = 42 ∧
    blockedChannel.funding.amount = 0 ∧
    (blockedChannel.compose_open_channel 42 0 basePolicy baseCommonParams basePeerParams
        baseLocalKeys).2 ≠ blockedChannel := by decide

/-- C2, amended: when the received `open_channel` parameters are out of the
policy bounds, `update_from_peer` returns the policy-violation error, but
the `ChannelCore` is PARTIALLY mutated: the lifecycle stage, direction,
active channel id and local/remote millisatoshi amounts have already been
overwritten from the message before validation ran, and keep those new
values; only the fields assigned after the validation line (remote params,
remote keys, the per-commitment point) keep their old values. -/
theorem update_from_peer_policy_failure (c : Core) (oc : OpenChannel) (e : ChannelError)
    (h : c.policy.validate_inbound oc = .error e) :
    c.update_from_peer (.OpenChannel oc) =
      (.error e,
       { c with
           stage := .Proposed
           direction := .Inbound
           active_channel_id := .Temporary oc.temporary_channel_id
           remote_amount_msat := u64sub (u64mul oc.funding_satoshis 1000) oc.push_msat
           local_amount_msat := oc.push_msat }) := by
  obtain ⟨st, chh, aci, fo, la, ra, cn, cs, pol, cp, lp, rp, lk, rk, rpc, lpc, d⟩ := c
  simp only [Core.update_from_peer] at *
  rw [h]

/-- C2, witness: the amended theorem applied at the concrete test state and
the concrete out-of-policy message. -/
theorem update_from_peer_policy_failure_witness :
    testCore.update_from_peer (.OpenChannel policyBreakingOpen) =
      (.error (.PolicyViolation "dust_limit_satoshis is out of the policy bounds"),
       { testCore with
           stage := .Proposed
           direction := .Inbound
           active_channel_id := .Temporary policyBreakingOpen.temporary_channel_id
           remote_amount_msat := u64sub (u64mul policyBreakingOpen.funding_satoshis 1000)
             policyBreakingOpen.push_msat
           local_amount_msat := policyBreakingOpen.push_msat }) :=
  update_from_peer_policy_failure testCore policyBreakingOpen
    (.PolicyViolation "dust_limit_satoshis is out of the policy bounds") (by decide)

/-- C2, counterexample: at a concrete state and a concrete out-of-policy
`open_channel` message, `update_from_peer` returns the policy-violation
error but the resulting core differs from the original — the stage has moved
to `Proposed` and the remote amount to 100000000 msat, refuting the claim
that the state retains all its previous values. -/
theorem update_from_peer_policy_failure_partial_mutation :
    (testCore.update_from_peer (.OpenChannel policyBreakingOpen)).1 =
      .error (.PolicyViolation "dust_limit_satoshis is out of the policy bounds") ∧
    (testCore.update_from_peer (.OpenChannel policyBreakingOpen)).2 ≠ testCore ∧
    (testCore.update_from_peer (.OpenChannel policyBreakingOpen)).2.stage = .Proposed ∧
    testCore.stage = .Initial ∧
    (testCore.update_from_peer (.OpenChannel policyBreakingOpen)).2.remote_amount_msat =
      100000000 ∧
    testCore.remote_amount_msat = 0 := by decide

/-- C5: evaluation of the code at the failing input — from a fresh channel,
a `funding_created` message installs the final channel id, after which a
second (successfully processed) `open_channel` message reinstalls a
TEMPORARY id: the temporary→final transition is not one-way, because
`update_from_peer` never checks the lifecycle stage (the source carries a
`TODO: Check lifecycle`). -/
theorem channel_id_reverts_after_final :
    (testCore.update_from_peer (.FundingCreated testFundingCreated)).2.active_channel_id =
      ActiveChannelId.Final (channelIdFromFunding (List.replicate 32 5) 1) ∧
    ((testCore.update_from_peer (.FundingCreated testFundingCreated)).2.update_from_peer
        (.OpenChannel passingOpen)).2.active_channel_id =
      ActiveChannelId.Temporary (List.replicate 32 2) ∧
    ((testCore.update_from_peer (.FundingCreated testFundingCreated)).2.update_from_peer
        (.OpenChannel passingOpen)).1 = .ok () := by decide

/-- `(x mod 2^32) land (2^24 - 1) = x land (2^24 - 1)`: the `as u32` cast
before the 24-bit mask is immaterial. -/
theorem mask24_of_mod32 (x : Nat) :
    x % 4294967296 &&& 0x00FFFFFF = x &&& 0x00FFFFFF := by
  have h24 : (0x00FFFFFF : Nat) = 2 ^ 24 - 1 := by decide
  rw [h24, Nat.and_pow_two_sub_one_eq_mod, Nat.and_pow_two_sub_one_eq_mod]
  have hdvd : (2 ^ 24 : Nat) ∣ 4294967296 := by decide
  exact Nat.mod_mod_of_dvd x hdvd

/-- C3, amended: for every channel state whose refund-fee deduction does not
underflow (the fee is at most the millisatoshi amount divided by 1000 on the
side that pays it — otherwise the u64 subtraction wraps and the claimed
value equation fails), `apply` succeeds and produces version 2, the §4.3
locktime/sequence packing of the obscured commitment number, and at most two
outputs in order: the counterparty to_local output iff the remote amount is
positive (fee deducted iff inbound), then the own to_remote output iff the
local amount is positive (fee deducted iff outbound). -/
theorem apply_commitment_template (c : Core) (S : SecpTotal) (g : TxGraph)
    (hra : c.remote_amount_msat < U64MOD)
    (hla : c.local_amount_msat < U64MOD)
    (hrf : 0 < c.remote_amount_msat →
      (if c.direction = Direction.Inbound then
        724 * c.common_params.feerate_per_kw / 1000 else 0) ≤
        c.remote_amount_msat / 1000)
    (hlf : 0 < c.local_amount_msat →
      (if c.direction = Direction.Outbount then
        724 * c.common_params.feerate_per_kw / 1000 else 0) ≤
        c.local_amount_msat / 1000) :
    c.apply S g =
      .ok { g with
              cmt_version := 2
              cmt_locktime := 0x20 <<< 24 ||| (c.obscured_commitment_number &&& 0x00FFFFFF)
              cmt_sequence := 0x80 <<< 24 ||| (c.obscured_commitment_number &&& 0x00FFFFFF)
              cmt_outs :=
                (if 0 < c.remote_amount_msat then
                  [TxOutPair.ln_to_local
                    (c.remote_amount_msat / 1000 -
                      (if c.direction = Direction.Inbound then
                        724 * c.common_params.feerate_per_kw / 1000 else 0))
                    (c.revocationpubkey S) c.remote_keys.delayed_payment_basepoint
                    c.remote_params.to_self_delay]
                else []) ++
                (if 0 < c.local_amount_msat then
                  [(⟨c.local_amount_msat / 1000 -
                      (if c.direction = Direction.Outbount then
                        724 * c.common_params.feerate_per_kw / 1000 else 0),
                     0x00 :: 0x14 :: hash160 c.local_keys.payment_basepoint.key.serialize⟩,
                    ⟨none⟩)]
                else []) } := by
  have hrlt : c.remote_amount_msat / 1000 < U64MOD :=
    Nat.lt_of_le_of_lt (Nat.div_le_self _ _) hra
  have hllt : c.local_amount_msat / 1000 < U64MOD :=
    Nat.lt_of_le_of_lt (Nat.div_le_self _ _) hla
  unfold Core.apply Core.refund_fee
  cases hdir : c.direction with
  | Inbound =>
    simp only [hdir] at hrf
    have hfee0 : u64sub (c.local_amount_msat / 1000) 0 =
        c.local_amount_msat / 1000 - 0 :=
      u64sub_eq_sub _ _ hllt (Nat.zero_le _)
    by_cases h0r : 0 < c.remote_amount_msat
    · have hsubr : u64sub (c.remote_amount_msat / 1000)
          (724 * c.common_params.feerate_per_kw / 1000) =
          c.remote_amount_msat / 1000 - 724 * c.common_params.feerate_per_kw / 1000 :=
        u64sub_eq_sub _ _ hrlt (by simpa using hrf h0r)
      by_cases h0l : 0 < c.local_amount_msat <;>
        simp [h0r, h0l, hdir, mask24_of_mod32, hsubr, hfee0,
          TxOutPair.ln_to_remote_v1, PubkeyScript.ln_to_remote_v1,
          BtcPubkey.wpubkey_hash, intoPk]
    · by_cases h0l : 0 < c.local_amount_msat <;>
        simp [h0r, h0l, hdir, mask24_of_mod32, hfee0,
          TxOutPair.ln_to_remote_v1, PubkeyScript.ln_to_remote_v1,
          BtcPubkey.wpubkey_hash, intoPk]
  | Outbount =>
    simp only [hdir] at hlf
    have hfee0 : u64sub (c.remote_amount_msat / 1000) 0 =
        c.remote_amount_msat / 1000 - 0 :=
      u64sub_eq_sub _ _ hrlt (Nat.zero_le _)
    by_cases h0l : 0 < c.local_amount_msat
    · have hsubl : u64sub (c.local_amount_msat / 1000)
          (724 * c.common_params.feerate_per_kw / 1000) =
          c.local_amount_msat / 1000 - 724 * c.common_params.feerate_per_kw / 1000 :=
        u64sub_eq_sub _ _ hllt (by simpa using hlf h0l)
      by_cases h0r : 0 < c.remote_amount_msat <;>
        simp [h0r, h0l, hdir, mask24_of_mod32, hsubl, hfee0,
          TxOutPair.ln_to_remote_v1, PubkeyScript.ln_to_remote_v1,
          BtcPubkey.wpubkey_hash, intoPk]
    · by_cases h0r : 0 < c.remote_amount_msat <;>
        simp [h0r, h0l, hdir, mask24_of_mod32, hfee0,
          TxOutPair.ln_to_remote_v1, PubkeyScript.ln_to_remote_v1,
          BtcPubkey.wpubkey_hash, intoPk]

/-- An inbound core with 5,000,000 msat on the remote side (the refund fee
at feerate 2000 is 1448 sat ≤ 5000 sat, so nothing underflows). -/
def appliedCore : Core := { testCore with direction := .Inbound, remote_amount_msat := 5000000 }

/-- C3, witness: the amended theorem applied at the concrete inbound state
`appliedCore` and the trivial total secp interface. -/
theorem apply_commitment_template_witness :
    appliedCore.apply baseSecp ⟨0, 0, 0, []⟩ =
      .ok { (⟨0, 0, 0, []⟩ : TxGraph) with
              cmt_version := 2
              cmt_locktime :=
                0x20 <<< 24 ||| (appliedCore.obscured_commitment_number &&& 0x00FFFFFF)
              cmt_sequence :=
                0x80 <<< 24 ||| (appliedCore.obscured_commitment_number &&& 0x00FFFFFF)
              cmt_outs :=
                (if 0 < appliedCore.remote_amount_msat then
                  [TxOutPair.ln_to_local
                    (appliedCore.remote_amount_msat / 1000 -
                      (if appliedCore.direction = Direction.Inbound then
                        724 * appliedCore.common_params.feerate_per_kw / 1000 else 0))
                    (appliedCore.revocationpubkey baseSecp)
                    appliedCore.remote_keys.delayed_payment_basepoint
                    appliedCore.remote_params.to_self_delay]
                else []) ++
                (if 0 < appliedCore.local_amount_msat then
                  [(⟨appliedCore.local_amount_msat / 1000 -
                      (if appliedCore.direction = Direction.Outbount then
                        724 * appliedCore.common_params.feerate_per_kw / 1000 else 0),
                     0x00 :: 0x14 ::
                       hash160 appliedCore.local_keys.payment_basepoint.key.serialize⟩,
                    ⟨none⟩)]
                else []) } :=
  apply_commitment_template appliedCore baseSecp ⟨0, 0, 0, []⟩
    (by decide) (by decide) (by decide) (by decide)

/-- An inbound core whose remote output amount (1 sat) is below the refund
fee (1448 sat at feerate 2000): the fee subtraction underflows. -/
def underflowCore : Core := { testCore with direction := .Inbound, remote_amount_msat := 1000 }

/-- The output values of an `apply` result (empty when it did not succeed). -/
def applyOutValues (o : Outcome ChannelError TxGraph) : List Nat :=
  match o with
  | .ok g => g.cmt_outs.map (fun p => p.1.value)
  | _ => []

/-- C3, counterexample: at a concrete state where the refund fee (1448 sat)
exceeds the remote output amount (1000 msat / 1000 = 1 sat), the u64
subtraction wraps: the single to_local output carries the value
`2^64 - 1447`, which equals the claimed `remote_amount_msat/1000 - fee`
under neither the truncated-subtraction nor the integer reading. -/
theorem apply_fee_underflow_counterexample :
    applyOutValues (underflowCore.apply baseSecp ⟨0, 0, 0, []⟩) = [18446744073709550169] ∧
    underflowCore.remote_amount_msat / 1000 = 1 ∧
    724 * underflowCore.common_params.feerate_per_kw / 1000 = 1448 ∧
    (18446744073709550169 : Nat) ≠ 1 - 1448 ∧
    (18446744073709550169 : Int) ≠ (1 : Int) - 1448 :=
  ⟨by decide, by decide, by decide, by decide, by decide⟩
